import Mathlib

/-!
Verification development for the AI-Powered Customer Feedback Analyser
(src/app.py).  The Python source is shallowly embedded: text is `List Char`,
Python floats are modelled as exact rationals (`ℚ`), the SQLite store is an
explicit `DbState` value threaded through the operations, and every fallible
operation returns `Except` (an uncaught Python exception) or `Option`
(a `None` result).  The primary TextBlob model is an external capability and
is modelled as an optional function from text to `Except PyErr ℚ` (the
polarity); it is `none` when TextBlob is unavailable, and it may error.
-/

/-- A Python-level exception value (only its identity matters here). -/
structure PyErr where
  code : Nat
deriving DecidableEq, Repr

/-- Sentiment labels produced by the classifier (app.py lines 35-66). -/
inductive Label where
  | positive
  | negative
  | neutral
deriving DecidableEq, Repr

/-- The `model_type` tag of a classification result (app.py lines 45, 71). -/
inductive ModelType where
  | textblob
  | keyword_fallback
deriving DecidableEq, Repr

/-- The dictionary returned by `SimpleSentimentAnalyzer.predict_sentiment`. -/
structure SentimentResult where
  sentiment : Label
  confidence : ℚ
  model_type : ModelType
deriving DecidableEq, Repr

/-- The external TextBlob capability: absent (`none`, TEXTBLOB_AVAILABLE is
False) or a polarity computation that may raise (app.py lines 21-33). -/
abbrev TBModel : Type := Option (List Char → Except PyErr ℚ)

/-- `listStartsWith w l` holds when `w` is an initial segment of `l`
(the building block for Python substring containment). -/
def listStartsWith : List Char → List Char → Bool
  | [], _ => true
  | _ :: _, [] => false
  | a :: as, b :: bs => a == b && listStartsWith as bs

/-- `listContainsSub w l` embeds Python `w in l` on strings: `w` occurs as a
contiguous substring of `l` (at any position, fragments of words included). -/
def listContainsSub : List Char → List Char → Bool
  | w, [] => w.isEmpty
  | w, c :: t => listStartsWith w (c :: t) || listContainsSub w t

/-- The fixed positive keyword set (app.py line 52). -/
def positive_words : List (List Char) :=
  ["good", "great", "excellent", "amazing", "love", "perfect", "awesome",
   "fantastic", "wonderful", "outstanding", "superb", "brilliant"].map String.data

/-- The fixed negative keyword set (app.py line 53). -/
def negative_words : List (List Char) :=
  ["bad", "terrible", "awful", "hate", "poor", "worst", "horrible",
   "disappointing", "pathetic", "useless", "garbage", "disgusting"].map String.data

/-- Python built-in `min` on two floats, on the exact-rational model. -/
def pymin (a b : ℚ) : ℚ := if a ≤ b then a else b

theorem pymin_eq_min (a b : ℚ) : pymin a b = min a b := (min_def a b).symm

/-- The fallback keyword model (app.py lines 50-72): lower-case the text,
count the positive and negative keywords contained in it, and compare. -/
def fallback_predict (text : List Char) : SentimentResult :=
  let text_lower := text.map Char.toLower
  let positive_count := (positive_words.filter (fun w => listContainsSub w text_lower)).length
  let negative_count := (negative_words.filter (fun w => listContainsSub w text_lower)).length
  if positive_count > negative_count then
    { sentiment := .positive
      confidence := pymin ((positive_count : ℚ) * 0.3) 1.0
      model_type := .keyword_fallback }
  else if negative_count > positive_count then
    { sentiment := .negative
      confidence := pymin ((negative_count : ℚ) * 0.3) 1.0
      model_type := .keyword_fallback }
  else
    { sentiment := .neutral
      confidence := 0.1
      model_type := .keyword_fallback }

/-- The TextBlob branch of `predict_sentiment` (app.py lines 32-46), given the
polarity it produced: threshold at ±0.1, confidence is the absolute value. -/
def primary_branch (polarity : ℚ) : SentimentResult :=
  { sentiment :=
      if polarity > 0.1 then .positive
      else if polarity < -0.1 then .negative
      else .neutral
    confidence := |polarity|
    model_type := .textblob }

/-- `SimpleSentimentAnalyzer.predict_sentiment` (app.py lines 29-72): use the
primary model when it is available and does not raise; otherwise (unavailable,
or any exception from it, which is caught) use the keyword fallback. -/
def predict_sentiment (tb : TBModel) (text : List Char) : SentimentResult :=
  match tb with
  | some f =>
    match f text with
    | .ok polarity => primary_branch polarity
    | .error _ => fallback_predict text
  | none => fallback_predict text

/-- Spec-side notion of substring occurrence: `w` occurs in `l` when `l`
splits as `s ++ w ++ u`. -/
def occurs_in (w l : List Char) : Prop := ∃ s u, s ++ w ++ u = l

theorem listStartsWith_iff (w : List Char) :
    ∀ l, listStartsWith w l = true ↔ ∃ u, w ++ u = l := by
  induction w with
  | nil =>
    intro l
    simp [listStartsWith]
  | cons a as ih =>
    intro l
    cases l with
    | nil =>
      simp [listStartsWith]
    | cons b bs =>
      simp only [listStartsWith, Bool.and_eq_true, beq_iff_eq, ih bs]
      constructor
      · rintro ⟨hab, u, hu⟩
        exact ⟨u, by simp [hab, hu]⟩
      · rintro ⟨u, hu⟩
        have h1 : a = b := by
          have := congrArg (fun t => t.head?) hu
          simpa using this
        have h2 : as ++ u = bs := by
          have := congrArg (fun t => t.tail) hu
          simpa using this
        exact ⟨h1, u, h2⟩

theorem listContainsSub_iff (w : List Char) :
    ∀ l, listContainsSub w l = true ↔ occurs_in w l := by
  intro l
  induction l with
  | nil =>
    simp only [listContainsSub, occurs_in, List.isEmpty_iff]
    constructor
    · rintro rfl
      exact ⟨[], [], rfl⟩
    · rintro ⟨s, u, h⟩
      simp only [List.append_eq_nil] at h
      exact h.1.2
  | cons c t ih =>
    simp only [listContainsSub, Bool.or_eq_true, listStartsWith_iff, ih, occurs_in]
    constructor
    · rintro (⟨u, hu⟩ | ⟨s, u, h⟩)
      · exact ⟨[], u, by simpa using hu⟩
      · exact ⟨c :: s, u, by simp [h]⟩
    · rintro ⟨s, u, h⟩
      cases s with
      | nil =>
        exact Or.inl ⟨u, by simpa using h⟩
      | cons x xs =>
        right
        refine ⟨xs, u, ?_⟩
        have := congrArg List.tail h
        simpa using this

/-- One row of the `predictions` table (app.py lines 84-94).  The
`created_at` timestamp is external wall-clock data and is not modelled. -/
structure StoredRecord where
  input_text : List Char
  sentiment_label : Label
  sentiment_confidence : ℚ
  topics_json : Option (List (List Char))
  metadata_json : Option (List (List Char × List Char))
deriving DecidableEq, Repr

/-- The SQLite database behind `SimpleDatabase`: a health flag (false models
any storage failure), the stored rows, and the next AUTOINCREMENT id. -/
structure DbState where
  healthy : Bool
  records : List StoredRecord
  next_id : Nat
deriving DecidableEq, Repr

/-- Serialization of the `topics` argument (app.py line 104): Python
`json.dumps(topics) if topics else None` stores NULL for both `None` and a
falsy (empty) list. -/
def topicsJson (topics : Option (List (List Char))) : Option (List (List Char)) :=
  match topics with
  | some l => if l.isEmpty then none else some l
  | none => none

/-- Serialization of the `metadata` argument (app.py line 105): NULL for
`None` and for a falsy (empty) mapping. -/
def metadataJson (metadata : Option (List (List Char × List Char))) :
    Option (List (List Char × List Char)) :=
  match metadata with
  | some m => if m.isEmpty then none else some m
  | none => none

/-- The raw SQLite INSERT (app.py lines 107-113): appends a row and returns
`cursor.lastrowid`, or raises when the storage layer fails. -/
def sqlite_insert (db : DbState) (input_text : List Char) (sentiment_label : Label)
    (sentiment_confidence : ℚ) (tj : Option (List (List Char)))
    (mj : Option (List (List Char × List Char))) : Except PyErr (Nat × DbState) :=
  if db.healthy then
    .ok (db.next_id,
         { db with
             records := db.records ++
               [{ input_text := input_text
                  sentiment_label := sentiment_label
                  sentiment_confidence := sentiment_confidence
                  topics_json := tj
                  metadata_json := mj }]
             next_id := db.next_id + 1 })
  else
    .error { code := 1 }

/-- `SimpleDatabase.store_prediction` (app.py lines 100-116): serialize the
optional fields, run the INSERT, return its id; any exception is caught and
turned into `None` with the store left as it was. -/
def store_prediction (db : DbState) (input_text : List Char) (sentiment_label : Label)
    (sentiment_confidence : ℚ) (topics : Option (List (List Char)))
    (metadata : Option (List (List Char × List Char))) : Option Nat × DbState :=
  match sqlite_insert db input_text sentiment_label sentiment_confidence
      (topicsJson topics) (metadataJson metadata) with
  | .ok (id, db2) => (some id, db2)
  | .error _ => (none, db)

/-- The statistics dictionary built by `SimpleDatabase.get_statistics`
(app.py lines 136-140). -/
structure StatisticsSnapshot where
  total_predictions : Nat
  sentiment_distribution : List (Label × Nat)
  average_confidence : ℚ
deriving DecidableEq, Repr

/-- Count of stored records carrying a given label (the GROUP BY COUNT of
app.py lines 126-130). -/
def label_count (rs : List StoredRecord) (l : Label) : Nat :=
  (rs.filter (fun r => r.sentiment_label == l)).length

/-- The `sentiment_distribution` dict (app.py line 131): one entry per label
actually present among the records, in the canonical label order. -/
def sentiment_distribution (rs : List StoredRecord) : List (Label × Nat) :=
  [Label.positive, Label.negative, Label.neutral].filterMap fun l =>
    if label_count rs l = 0 then none else some (l, label_count rs l)

/-- Round-half-to-even to the nearest integer, as Python `round` does. -/
def roundHalfEven (q : ℚ) : ℤ :=
  if q - ⌊q⌋ < 1 / 2 then ⌊q⌋
  else if q - ⌊q⌋ > 1 / 2 then ⌊q⌋ + 1
  else if ⌊q⌋ % 2 = 0 then ⌊q⌋ else ⌊q⌋ + 1

/-- Python `round(x, 4)` (app.py line 139), on the exact-rational model of
float arithmetic. -/
def pyRound4 (q : ℚ) : ℚ := (roundHalfEven (q * 10000) : ℚ) / 10000

/-- `SimpleDatabase.get_statistics` (app.py lines 118-143): on a healthy
store, the row count, the per-label GROUP BY counts, and the AVG of the
confidence column (`NULL` coalesced to 0.0 on an empty table) rounded to 4
decimal places.  On any read failure the except branch returns the empty
dict `{}`, modelled as `none` (no snapshot fields at all). -/
def get_statistics (db : DbState) : Option StatisticsSnapshot :=
  if db.healthy then
    let avg : ℚ :=
      if db.records.isEmpty then 0
      else (db.records.map StoredRecord.sentiment_confidence).sum / (db.records.length : ℚ)
    some
      { total_predictions := db.records.length
        sentiment_distribution := sentiment_distribution db.records
        average_confidence := pyRound4 avg }
  else
    none

/-- A JSON value appearing as an element of the `texts` array (or as the
`text` field): a string, or one of the non-string shapes that matter only
through Python truthiness and `isinstance` checks. -/
inductive JsonItem where
  | jstr (s : List Char)
  | jnum (n : Int)
  | jbool (b : Bool)
  | jnull
deriving DecidableEq, Repr

/-- One element of the `results` array of `/batch_analyze`: either the
success dict (app.py lines 260-268) or the error dict (lines 281-285). -/
inductive Outcome where
  | ok (index : Nat) (text : List Char) (label : Label) (confidence : ℚ)
  | err (index : Nat) (item : JsonItem) (e : PyErr)
deriving DecidableEq, Repr

/-- The success body of `/batch_analyze` (app.py lines 287-291); the
timestamp is external wall-clock data and is not modelled. -/
structure BatchResponse where
  results : List Outcome
  processed_count : Nat
deriving DecidableEq, Repr

/-- An HTTP-level error response (a 400 with its message). -/
inductive ApiError where
  | badRequest (msg : String)
deriving DecidableEq, Repr

/-- Python truthiness-plus-type test from app.py line 255: an item survives
`if not text or not isinstance(text, str): continue` exactly when it is a
non-empty string. -/
def isNonEmptyStr : JsonItem → Bool
  | .jstr s => !s.isEmpty
  | _ => false

/-- The per-item loop of `batch_analyze` (app.py lines 253-285), carrying the
accumulated results and the store.  The body of the `try` block is built in
`Except`; its handler (`except` at line 279) appends an error outcome, but
every operation inside the body is total (`predict_sentiment` and
`store_prediction` catch their own exceptions), so the body is always `.ok`. -/
def batch_loop (tb : TBModel) :
    List JsonItem → Nat → List Outcome → DbState → List Outcome × DbState
  | [], _, acc, db => (acc, db)
  | item :: rest, i, acc, db =>
    let step : Except PyErr (List Outcome × DbState) :=
      if isNonEmptyStr item then
        match item with
        | .jstr s => do
          let r := predict_sentiment tb s
          let acc2 := acc ++ [Outcome.ok i s r.sentiment r.confidence]
          let db2 := (store_prediction db s r.sentiment r.confidence none none).2
          pure (acc2, db2)
        | _ => pure (acc, db)
      else
        pure (acc, db)
    match step with
    | .ok (acc2, db2) => batch_loop tb rest (i + 1) acc2 db2
    | .error e => batch_loop tb rest (i + 1) (acc ++ [Outcome.err i item e]) db

/-- The `/batch_analyze` handler (app.py lines 234-291) given a parsed
`texts` list (`none` models a missing `texts` field): validate the batch
size, then run the per-item loop.  The pair's second component is the store
after the call (unchanged on rejection). -/
def batch_analyze (tb : TBModel) (db : DbState) (texts : Option (List JsonItem)) :
    Except ApiError BatchResponse × DbState :=
  match texts with
  | none => (.error (.badRequest "Missing texts field in request"), db)
  | some ts =>
    if ts.length = 0 then (.error (.badRequest "texts must be a non-empty list"), db)
    else if ts.length > 100 then (.error (.badRequest "Batch size too large (max 100)"), db)
    else
      let results := (batch_loop tb ts 0 [] db).1
      (.ok { results := results, processed_count := results.length },
       (batch_loop tb ts 0 [] db).2)

/-- Python `str.strip()` on the whitespace model of `Char.isWhitespace`. -/
def pyStrip (s : List Char) : List Char :=
  ((s.dropWhile Char.isWhitespace).reverse.dropWhile Char.isWhitespace).reverse

/-- The `text` validation of `/analyze` (app.py line 196): truthy, a string,
and non-empty after stripping. -/
def valid_text : JsonItem → Bool
  | .jstr s => !s.isEmpty && !(pyStrip s).isEmpty
  | _ => false

/-- The success body of `/analyze` (app.py lines 203-213); the timestamp is
not modelled and `topics` is always the empty list. -/
structure AnalyzeResponse where
  text : List Char
  label : Label
  confidence : ℚ
  model_type : ModelType
  analysis_id : Option Nat
deriving DecidableEq, Repr

/-- The `/analyze` handler (app.py lines 185-228) given the parsed `text`
field (`none` models a missing field or body): validate, classify, attempt
to store (a `None` id is passed through), and answer.  The pair's second
component is the store after the call. -/
def analyze_feedback (tb : TBModel) (db : DbState) (text : Option JsonItem) :
    Except ApiError AnalyzeResponse × DbState :=
  match text with
  | none => (.error (.badRequest "Missing text field in request"), db)
  | some item =>
    if valid_text item then
      match item with
      | .jstr s =>
        let r := predict_sentiment tb s
        let stored := store_prediction db s r.sentiment r.confidence none none
        (.ok { text := s
               label := r.sentiment
               confidence := r.confidence
               model_type := r.model_type
               analysis_id := stored.1 }, stored.2)
      | _ => (.error (.badRequest "Invalid text input"), db)
    else
      (.error (.badRequest "Invalid text input"), db)

instance (w l : List Char) : Decidable (occurs_in w l) :=
  decidable_of_iff (listContainsSub w l = true) (listContainsSub_iff w l)

theorem decide_occurs_in (w l : List Char) :
    decide (occurs_in w l) = listContainsSub w l := by
  by_cases h : occurs_in w l
  · rw [decide_eq_true h, (listContainsSub_iff w l).mpr h]
  · rw [decide_eq_false h]
    exact (Bool.eq_false_iff.mpr fun hc => h ((listContainsSub_iff w l).mp hc)).symm

/-- Spec-side positive hit count: the number of terms of the positive set
occurring (as substrings) in the lower-cased text. -/
def pHits (t : List Char) : Nat :=
  (positive_words.filter fun w => decide (occurs_in w (t.map Char.toLower))).length

/-- Spec-side negative hit count. -/
def nHits (t : List Char) : Nat :=
  (negative_words.filter fun w => decide (occurs_in w (t.map Char.toLower))).length

/-- C1: for non-empty text the fallback keyword model lower-cases the text,
counts positive and negative hits by case-insensitive substring containment
(fragments inside longer words count), and returns positive with confidence
min(p*0.3, 1.0) when p > n, negative with min(n*0.3, 1.0) when n > p, and
neutral with fixed confidence 0.1 when p = n. -/
theorem fallback_keyword_model_spec (t : List Char) (h : t ≠ []) :
    fallback_predict t =
      if pHits t > nHits t then
        { sentiment := .positive
          confidence := min ((pHits t : ℚ) * 0.3) 1.0
          model_type := .keyword_fallback }
      else if nHits t > pHits t then
        { sentiment := .negative
          confidence := min ((nHits t : ℚ) * 0.3) 1.0
          model_type := .keyword_fallback }
      else
        { sentiment := .neutral
          confidence := 0.1
          model_type := .keyword_fallback } := by
  simp only [fallback_predict, pHits, nHits, decide_occurs_in, pymin_eq_min]

theorem fallback_keyword_model_spec_witness :
    "amazing and wonderful".data ≠ ([] : List Char) ∧
    fallback_predict "amazing and wonderful".data =
      { sentiment := .positive, confidence := 6 / 10, model_type := .keyword_fallback } := by
  refine ⟨by decide, ?_⟩
  rw [fallback_keyword_model_spec "amazing and wonderful".data (by decide)]
  have hp : pHits "amazing and wonderful".data = 2 := by decide
  have hn : nHits "amazing and wonderful".data = 0 := by decide
  rw [hp, hn]
  norm_num [min_def]

theorem fallback_confidence_bounds (t : List Char) :
    0 ≤ (fallback_predict t).confidence ∧ (fallback_predict t).confidence ≤ 1 := by
  unfold fallback_predict
  dsimp only
  split_ifs
  · dsimp only
    rw [pymin_eq_min]
    constructor
    · exact le_min (by positivity) (by norm_num)
    · exact le_trans (min_le_right _ _) (by norm_num)
  · dsimp only
    rw [pymin_eq_min]
    constructor
    · exact le_min (by positivity) (by norm_num)
    · exact le_trans (min_le_right _ _) (by norm_num)
  · norm_num

/-- C7: for non-empty text, classification returns a confidence in [0, 1]
and a label among positive/negative/neutral, on the primary path (given that
the primary polarity lies in [-1, 1], confidence is its absolute value) and
on the fallback path alike. -/
theorem classify_bounds (tb : TBModel) (t : List Char) (h : t ≠ [])
    (hq : ∀ f q, tb = some f → f t = .ok q → -1 ≤ q ∧ q ≤ 1) :
    (0 ≤ (predict_sentiment tb t).confidence ∧ (predict_sentiment tb t).confidence ≤ 1) ∧
    ((predict_sentiment tb t).sentiment = .positive ∨
     (predict_sentiment tb t).sentiment = .negative ∨
     (predict_sentiment tb t).sentiment = .neutral) := by
  have hlab : ∀ r : SentimentResult,
      r.sentiment = .positive ∨ r.sentiment = .negative ∨ r.sentiment = .neutral := by
    intro r
    cases r.sentiment <;> simp
  refine ⟨?_, hlab _⟩
  cases tb with
  | none => simpa [predict_sentiment] using fallback_confidence_bounds t
  | some f =>
    cases hf : f t with
    | ok q =>
      have hb := hq f q rfl hf
      simp only [predict_sentiment, hf, primary_branch]
      exact ⟨abs_nonneg q, abs_le.mpr hb⟩
    | error e =>
      simpa [predict_sentiment, hf] using fallback_confidence_bounds t

theorem classify_bounds_witness :
    "good".data ≠ ([] : List Char) ∧
    (0 ≤ (predict_sentiment none "good".data).confidence ∧
      (predict_sentiment none "good".data).confidence ≤ 1) ∧
    ((predict_sentiment none "good".data).sentiment = .positive ∨
     (predict_sentiment none "good".data).sentiment = .negative ∨
     (predict_sentiment none "good".data).sentiment = .neutral) :=
  ⟨by decide, classify_bounds none "good".data (by decide) (fun f q hf _ => nomatch hf)⟩

/-- The call contexts in which `predict_sentiment` takes the fallback path:
the primary model is unavailable, or it raises on this text. -/
def fallback_taken (tb : TBModel) (t : List Char) : Prop :=
  tb = none ∨ ∃ f e, tb = some f ∧ f t = .error e

/-- C8: the fallback keyword model is deterministic: any two calls that take
the fallback path on the same text (whatever the state of the primary model
at each call) return the same label and confidence. -/
theorem fallback_deterministic (t : List Char) (tb1 tb2 : TBModel)
    (h1 : fallback_taken tb1 t) (h2 : fallback_taken tb2 t) :
    predict_sentiment tb1 t = predict_sentiment tb2 t := by
  have key : ∀ tb, fallback_taken tb t → predict_sentiment tb t = fallback_predict t := by
    rintro tb (rfl | ⟨f, e, rfl, hf⟩)
    · rfl
    · simp [predict_sentiment, hf]
  rw [key tb1 h1, key tb2 h2]

theorem fallback_deterministic_witness :
    fallback_taken none "fine".data ∧
    fallback_taken (some fun _ => .error { code := 7 }) "fine".data ∧
    predict_sentiment none "fine".data =
      predict_sentiment (some fun _ => .error { code := 7 }) "fine".data :=
  ⟨Or.inl rfl, Or.inr ⟨_, _, rfl, rfl⟩,
   fallback_deterministic "fine".data none (some fun _ => .error { code := 7 })
     (Or.inl rfl) (Or.inr ⟨_, _, rfl, rfl⟩)⟩

/-- C6: `store_prediction` never raises to its caller: whatever the inputs,
either the underlying INSERT succeeds and the call returns the new record id
(the store's next AUTOINCREMENT id) with the row appended, or the INSERT
raises and the call returns the `None` sentinel with the store unchanged —
the exception is swallowed, so a storage failure cannot fail the response. -/
theorem store_prediction_no_raise (db : DbState) (text : List Char) (lbl : Label)
    (conf : ℚ) (topics : Option (List (List Char)))
    (metadata : Option (List (List Char × List Char))) :
    (∃ db2, sqlite_insert db text lbl conf (topicsJson topics) (metadataJson metadata) =
        .ok (db.next_id, db2) ∧
      store_prediction db text lbl conf topics metadata = (some db.next_id, db2)) ∨
    (∃ e, sqlite_insert db text lbl conf (topicsJson topics) (metadataJson metadata) =
        .error e ∧
      store_prediction db text lbl conf topics metadata = (none, db)) := by
  by_cases h : db.healthy = true
  · left
    refine ⟨{ db with
                records := db.records ++
                  [{ input_text := text
                     sentiment_label := lbl
                     sentiment_confidence := conf
                     topics_json := topicsJson topics
                     metadata_json := metadataJson metadata }]
                next_id := db.next_id + 1 }, ?_, ?_⟩ <;>
      simp [store_prediction, sqlite_insert, h]
  · right
    refine ⟨{ code := 1 }, ?_, ?_⟩ <;> simp [store_prediction, sqlite_insert, h]

theorem sentiment_distribution_sum (rs : List StoredRecord) :
    ((sentiment_distribution rs).map Prod.snd).sum = rs.length := by
  have htot : label_count rs .positive + label_count rs .negative +
      label_count rs .neutral = rs.length := by
    induction rs with
    | nil => rfl
    | cons r t ih =>
      cases hl : r.sentiment_label <;>
        simp [label_count, hl, List.filter_cons] at ih ⊢ <;> omega
  simp only [sentiment_distribution, List.filterMap_cons, List.filterMap_nil]
  by_cases h1 : label_count rs .positive = 0 <;>
    by_cases h2 : label_count rs .negative = 0 <;>
      by_cases h3 : label_count rs .neutral = 0 <;>
        simp [h1, h2, h3] <;> omega

/-- C2 (amended): on a readable store, `get_statistics` returns a snapshot
whose `total_predictions` is the number of stored records, whose
distribution assigns to each present label its record count (and lists
exactly the labels with a non-zero count), the listed counts summing to the
total, and whose `average_confidence` is the arithmetic mean of the stored
confidences (0 on an empty store) rounded to 4 decimal places with Python's
round-half-to-even — not the exact mean. -/
theorem get_statistics_spec (db : DbState) (h : db.healthy = true) :
    ∃ s, get_statistics db = some s ∧
      s.total_predictions = db.records.length ∧
      (∀ l c, (l, c) ∈ s.sentiment_distribution → c = label_count db.records l ∧ 0 < c) ∧
      (∀ l, 0 < label_count db.records l →
        (l, label_count db.records l) ∈ s.sentiment_distribution) ∧
      (s.sentiment_distribution.map Prod.snd).sum = s.total_predictions ∧
      s.average_confidence =
        pyRound4 (if db.records.isEmpty then 0
          else (db.records.map StoredRecord.sentiment_confidence).sum /
            (db.records.length : ℚ)) := by
  refine ⟨{ total_predictions := db.records.length
            sentiment_distribution := sentiment_distribution db.records
            average_confidence := pyRound4 (if db.records.isEmpty then 0
              else (db.records.map StoredRecord.sentiment_confidence).sum /
                (db.records.length : ℚ)) },
          by simp [get_statistics, h], rfl, ?_, ?_, ?_, rfl⟩
  · intro l c hm
    simp only [sentiment_distribution, List.mem_filterMap] at hm
    obtain ⟨a, _, ha⟩ := hm
    by_cases hz : label_count db.records a = 0
    · rw [if_pos hz] at ha
      exact absurd ha (by simp)
    · rw [if_neg hz] at ha
      obtain ⟨rfl, rfl⟩ := Prod.ext_iff.mp (Option.some.inj ha)
      exact ⟨rfl, Nat.pos_of_ne_zero hz⟩
  · intro l hl
    simp only [sentiment_distribution, List.mem_filterMap]
    refine ⟨l, by cases l <;> simp, ?_⟩
    rw [if_neg (by omega)]
  · exact sentiment_distribution_sum db.records

theorem roundHalfEven_of_lt_half (q : ℚ) (n : ℤ) (h1 : (n : ℚ) ≤ q)
    (h2 : q - n < 1 / 2) : roundHalfEven q = n := by
  have hf : ⌊q⌋ = n := Int.floor_eq_iff.mpr ⟨h1, by linarith⟩
  unfold roundHalfEven
  rw [hf, if_pos h2]

theorem pyRound4_eval (q : ℚ) (n : ℤ) (h1 : (n : ℚ) ≤ q * 10000)
    (h2 : q * 10000 - n < 1 / 2) : pyRound4 q = (n : ℚ) / 10000 := by
  unfold pyRound4
  rw [roundHalfEven_of_lt_half (q * 10000) n h1 h2]

/-- The three-record example store of the spec: labels positive, positive,
negative with confidences 0.6, 0.3, 0.9. -/
def recsEx : List StoredRecord :=
  [⟨"a".data, .positive, 6 / 10, none, none⟩,
   ⟨"b".data, .positive, 3 / 10, none, none⟩,
   ⟨"c".data, .negative, 9 / 10, none, none⟩]

def dbEx : DbState := { healthy := true, records := recsEx, next_id := 4 }

theorem get_statistics_spec_witness :
    dbEx.healthy = true ∧
    (∃ s, get_statistics dbEx = some s ∧
      s.total_predictions = dbEx.records.length ∧
      (∀ l c, (l, c) ∈ s.sentiment_distribution → c = label_count dbEx.records l ∧ 0 < c) ∧
      (∀ l, 0 < label_count dbEx.records l →
        (l, label_count dbEx.records l) ∈ s.sentiment_distribution) ∧
      (s.sentiment_distribution.map Prod.snd).sum = s.total_predictions ∧
      s.average_confidence =
        pyRound4 (if dbEx.records.isEmpty then 0
          else (dbEx.records.map StoredRecord.sentiment_confidence).sum /
            (dbEx.records.length : ℚ))) ∧
    get_statistics dbEx =
      some { total_predictions := 3
             sentiment_distribution := [(.positive, 2), (.negative, 1)]
             average_confidence := 6 / 10 } := by
  refine ⟨rfl, get_statistics_spec dbEx rfl, ?_⟩
  have hd : sentiment_distribution recsEx = [(.positive, 2), (.negative, 1)] := by decide
  simp [get_statistics, dbEx, hd]
  norm_num [recsEx, List.cons_ne_nil]
  rw [pyRound4_eval _ 6000 (by norm_num) (by norm_num)]
  norm_num

theorem get_statistics_counterexample :
    ((([⟨"x".data, .neutral, 1 / 3, none, none⟩] : List StoredRecord).map
        StoredRecord.sentiment_confidence).sum / (1 : ℚ)) = 1 / 3 ∧
    (get_statistics { healthy := true
                      records := [⟨"x".data, .neutral, 1 / 3, none, none⟩]
                      next_id := 2 }).map StatisticsSnapshot.average_confidence =
      some (3333 / 10000) ∧
    (3333 / 10000 : ℚ) ≠ 1 / 3 := by
  refine ⟨by norm_num, ?_, by norm_num⟩
  simp [get_statistics, sentiment_distribution]
  norm_num
  rw [pyRound4_eval _ 3333 (by norm_num) (by norm_num)]
  norm_num

/-- C4 (amended): `get_statistics` returns the zeroed snapshot when the store
is readable and empty; on a read failure it returns the empty dict (no
snapshot fields at all, modelled `none`), not a zeroed snapshot. -/
theorem aggregate_zeroed_spec (db : DbState) :
    (db.healthy = true → db.records = [] →
      get_statistics db =
        some { total_predictions := 0
               sentiment_distribution := []
               average_confidence := 0 }) ∧
    (db.healthy = false → get_statistics db = none) := by
  constructor
  · intro h hr
    simp [get_statistics, h, hr, sentiment_distribution, label_count, pyRound4,
      roundHalfEven]
  · intro h
    simp [get_statistics, h]

theorem aggregate_zeroed_spec_witness :
    get_statistics { healthy := true, records := [], next_id := 1 } =
      some { total_predictions := 0
             sentiment_distribution := []
             average_confidence := 0 } ∧
    get_statistics { healthy := false, records := [], next_id := 1 } = none :=
  ⟨(aggregate_zeroed_spec { healthy := true, records := [], next_id := 1 }).1 rfl rfl,
   (aggregate_zeroed_spec { healthy := false, records := [], next_id := 1 }).2 rfl⟩

theorem aggregate_unreadable_counterexample :
    get_statistics { healthy := false, records := [], next_id := 1 } ≠
      some { total_predictions := 0
             sentiment_distribution := []
             average_confidence := 0 } := by
  decide

/-- Spec-side description of the outcome one enumerated batch item produces:
nothing for an item that is not a non-empty string, and exactly one success
entry (with the item's original index and the classification of its text)
otherwise. -/
def outcomeOf (tb : TBModel) (p : Nat × JsonItem) : Option Outcome :=
  match p.2 with
  | .jstr s =>
    if s.isEmpty then none
    else some (.ok p.1 s (predict_sentiment tb s).sentiment
        (predict_sentiment tb s).confidence)
  | _ => none

theorem batch_loop_results (tb : TBModel) :
    ∀ (ts : List JsonItem) (i : Nat) (acc : List Outcome) (db : DbState),
      (batch_loop tb ts i acc db).1 =
        acc ++ (List.enumFrom i ts).filterMap (outcomeOf tb) := by
  intro ts
  induction ts with
  | nil =>
    intro i acc db
    simp [batch_loop, List.enumFrom]
  | cons item rest ih =>
    intro i acc db
    cases item with
    | jstr s =>
      by_cases hs : s.isEmpty
      · simp [batch_loop, isNonEmptyStr, hs, ih, List.enumFrom, outcomeOf, pure, Except.pure]
      · simp [batch_loop, isNonEmptyStr, hs, ih, List.enumFrom, outcomeOf, pure, Except.pure]
    | jnum n => simp [batch_loop, isNonEmptyStr, ih, List.enumFrom, outcomeOf, pure, Except.pure]
    | jbool b => simp [batch_loop, isNonEmptyStr, ih, List.enumFrom, outcomeOf, pure, Except.pure]
    | jnull => simp [batch_loop, isNonEmptyStr, ih, List.enumFrom, outcomeOf, pure, Except.pure]

/-- C3: an accepted batch (non-empty, at most 100 items) is handled in
original order preserving original indices: an item that is not a non-empty
string produces no outcome entry at all, every other item produces exactly
one entry, and processed_count is the length of the outcome list (which may
be shorter than the input). -/
theorem batch_order_spec (tb : TBModel) (db : DbState) (ts : List JsonItem)
    (h1 : 1 ≤ ts.length) (h2 : ts.length ≤ 100) :
    (batch_analyze tb db (some ts)).1 =
      .ok { results := ts.enum.filterMap (outcomeOf tb)
            processed_count := (ts.enum.filterMap (outcomeOf tb)).length } := by
  have h0 : ¬ ts.length = 0 := by omega
  have h100 : ¬ ts.length > 100 := by omega
  simp [batch_analyze, h0, h100, batch_loop_results, List.enum]

theorem batch_order_spec_witness :
    1 ≤ ([JsonItem.jstr "good".data, JsonItem.jnum 42,
          JsonItem.jstr "bad".data] : List JsonItem).length ∧
    ([JsonItem.jstr "good".data, JsonItem.jnum 42,
      JsonItem.jstr "bad".data] : List JsonItem).length ≤ 100 ∧
    (batch_analyze none { healthy := true, records := [], next_id := 1 }
        (some [JsonItem.jstr "good".data, JsonItem.jnum 42,
               JsonItem.jstr "bad".data])).1 =
      .ok { results := [Outcome.ok 0 "good".data .positive (3 / 10),
                        Outcome.ok 2 "bad".data .negative (3 / 10)]
            processed_count := 2 } := by
  refine ⟨by decide, by decide, ?_⟩
  rw [batch_order_spec none { healthy := true, records := [], next_id := 1 }
      [JsonItem.jstr "good".data, JsonItem.jnum 42, JsonItem.jstr "bad".data]
      (by decide) (by decide)]
  have hp1 : (positive_words.filter
      (fun w => listContainsSub w ("good".data.map Char.toLower))).length = 1 := by decide
  have hn1 : (negative_words.filter
      (fun w => listContainsSub w ("good".data.map Char.toLower))).length = 0 := by decide
  have hp2 : (positive_words.filter
      (fun w => listContainsSub w ("bad".data.map Char.toLower))).length = 0 := by decide
  have hn2 : (negative_words.filter
      (fun w => listContainsSub w ("bad".data.map Char.toLower))).length = 1 := by decide
  have e1 : predict_sentiment none "good".data =
      { sentiment := .positive, confidence := 3 / 10, model_type := .keyword_fallback } := by
    show fallback_predict "good".data = _
    simp only [fallback_predict, hp1, hn1]
    norm_num [pymin]
  have e2 : predict_sentiment none "bad".data =
      { sentiment := .negative, confidence := 3 / 10, model_type := .keyword_fallback } := by
    show fallback_predict "bad".data = _
    simp only [fallback_predict, hp2, hn2]
    norm_num [pymin]
  simp [List.enum, List.enumFrom, outcomeOf, e1, e2]

/-- C5: a batch that is empty or longer than 100 items is rejected before
any per-item processing: the handler answers a 400 without classifying or
storing anything, and the store is returned unchanged. -/
theorem batch_rejects_spec (tb : TBModel) (db : DbState) (ts : List JsonItem)
    (h : ts.length = 0 ∨ ts.length > 100) :
    ∃ msg, batch_analyze tb db (some ts) = (.error (.badRequest msg), db) := by
  rcases h with h | h
  · exact ⟨"texts must be a non-empty list", by simp [batch_analyze, h]⟩
  · refine ⟨"Batch size too large (max 100)", ?_⟩
    have h0 : ¬ ts.length = 0 := by omega
    simp [batch_analyze, h0, h]

theorem batch_rejects_spec_witness :
    (([] : List JsonItem).length = 0 ∨ ([] : List JsonItem).length > 100) ∧
    (∃ msg, batch_analyze none { healthy := true, records := [], next_id := 1 }
        (some []) =
      (.error (.badRequest msg), { healthy := true, records := [], next_id := 1 })) ∧
    ((List.replicate 101 (JsonItem.jstr "good".data)).length = 0 ∨
      (List.replicate 101 (JsonItem.jstr "good".data)).length > 100) ∧
    (∃ msg, batch_analyze none { healthy := true, records := [], next_id := 1 }
        (some (List.replicate 101 (JsonItem.jstr "good".data))) =
      (.error (.badRequest msg), { healthy := true, records := [], next_id := 1 })) :=
  ⟨Or.inl rfl,
   batch_rejects_spec none { healthy := true, records := [], next_id := 1 } []
     (Or.inl rfl),
   Or.inr (by simp),
   batch_rejects_spec none { healthy := true, records := [], next_id := 1 }
     (List.replicate 101 (JsonItem.jstr "good".data)) (Or.inr (by simp))⟩

/-- C9: within an accepted batch, the error-outcome branch is unreachable:
every outcome entry the handler produces is a success entry, because
`predict_sentiment` catches primary-model errors internally (the keyword
fallback being total on strings) and `store_prediction` catches all storage
errors internally and returns `None`. -/
theorem batch_no_error_outcomes (tb : TBModel) (db : DbState) (ts : List JsonItem)
    (resp : BatchResponse) (db2 : DbState)
    (h : batch_analyze tb db (some ts) = (.ok resp, db2)) :
    ∀ o ∈ resp.results, ∃ i s l c, o = Outcome.ok i s l c := by
  intro o ho
  by_cases h0 : ts.length = 0
  · simp [batch_analyze, h0] at h
  · by_cases h100 : ts.length > 100
    · simp [batch_analyze, h0, h100] at h
    · simp only [batch_analyze, h0, h100, if_false, ite_false] at h
      injection h with hA hB
      injection hA with hA
      rw [← hA] at ho
      dsimp only at ho
      rw [batch_loop_results] at ho
      simp only [List.nil_append, List.mem_filterMap] at ho
      obtain ⟨p, -, hp⟩ := ho
      rcases p with ⟨i, item⟩
      cases item with
      | jstr s =>
        simp only [outcomeOf] at hp
        by_cases hs : s.isEmpty
        · rw [if_pos hs] at hp
          exact absurd hp (by simp)
        · rw [if_neg hs] at hp
          exact ⟨i, s, _, _, (Option.some.inj hp).symm⟩
      | jnum n => simp [outcomeOf] at hp
      | jbool b => simp [outcomeOf] at hp
      | jnull => simp [outcomeOf] at hp

theorem batch_no_error_outcomes_witness :
    (batch_analyze none { healthy := true, records := [], next_id := 1 }
        (some [JsonItem.jstr "good".data]) =
      (.ok { results := [Outcome.ok 0 "good".data .positive (3 / 10)]
             processed_count := 1 },
       { healthy := true
         records := [⟨"good".data, .positive, 3 / 10, none, none⟩]
         next_id := 2 })) ∧
    (∀ o ∈ ({ results := [Outcome.ok 0 "good".data .positive (3 / 10)]
              processed_count := 1 } : BatchResponse).results,
      ∃ i s l c, o = Outcome.ok i s l c) := by
  have hp1 : (positive_words.filter
      (fun w => listContainsSub w ("good".data.map Char.toLower))).length = 1 := by decide
  have hn1 : (negative_words.filter
      (fun w => listContainsSub w ("good".data.map Char.toLower))).length = 0 := by decide
  have e1 : predict_sentiment none "good".data =
      { sentiment := .positive, confidence := 3 / 10, model_type := .keyword_fallback } := by
    show fallback_predict "good".data = _
    simp only [fallback_predict, hp1, hn1]
    norm_num [pymin]
  have hEq : batch_analyze none { healthy := true, records := [], next_id := 1 }
      (some [JsonItem.jstr "good".data]) =
      (.ok { results := [Outcome.ok 0 "good".data .positive (3 / 10)]
             processed_count := 1 },
       { healthy := true
         records := [⟨"good".data, .positive, 3 / 10, none, none⟩]
         next_id := 2 }) := by
    simp [batch_analyze, batch_loop, isNonEmptyStr, e1, store_prediction, sqlite_insert,
      topicsJson, metadataJson, pure, Except.pure]
  exact ⟨hEq, batch_no_error_outcomes none _ _ _ _ hEq⟩

/-- C10: a whitespace-only string item in a batch is neither skipped nor
rejected: it is classified (the fallback yields neutral with confidence 0.1),
produces a success outcome counted in processed_count, and is persisted to a
healthy store — whereas the single-item analyze handler rejects the same
whitespace-only text as invalid input before any classification, leaving the
store untouched. -/
theorem whitespace_batch_vs_single (db : DbState) (h : db.healthy = true) :
    analyze_feedback none db (some (.jstr "   ".data)) =
      (.error (.badRequest "Invalid text input"), db) ∧
    batch_analyze none db (some [.jstr "   ".data]) =
      (.ok { results := [Outcome.ok 0 "   ".data .neutral (1 / 10)]
             processed_count := 1 },
       { db with records := db.records ++ [⟨"   ".data, .neutral, 1 / 10, none, none⟩]
                 next_id := db.next_id + 1 }) := by
  have hvt : valid_text (.jstr "   ".data) = false := by decide
  have hne : isNonEmptyStr (.jstr "   ".data) = true := by decide
  have hp : (positive_words.filter
      (fun w => listContainsSub w ("   ".data.map Char.toLower))).length = 0 := by decide
  have hn : (negative_words.filter
      (fun w => listContainsSub w ("   ".data.map Char.toLower))).length = 0 := by decide
  have e : predict_sentiment none "   ".data =
      { sentiment := .neutral, confidence := 1 / 10, model_type := .keyword_fallback } := by
    show fallback_predict "   ".data = _
    simp only [fallback_predict, hp, hn]
    norm_num
  constructor
  · simp [analyze_feedback, hvt]
  · simp [batch_analyze, batch_loop, hne, e, store_prediction, sqlite_insert,
      topicsJson, metadataJson, h, pure, Except.pure]

theorem whitespace_batch_vs_single_witness :
    ({ healthy := true, records := [], next_id := 1 } : DbState).healthy = true ∧
    (analyze_feedback none { healthy := true, records := [], next_id := 1 }
        (some (.jstr "   ".data)) =
      (.error (.badRequest "Invalid text input"),
       { healthy := true, records := [], next_id := 1 }) ∧
    batch_analyze none { healthy := true, records := [], next_id := 1 }
        (some [.jstr "   ".data]) =
      (.ok { results := [Outcome.ok 0 "   ".data .neutral (1 / 10)]
             processed_count := 1 },
       { healthy := true
         records := [] ++ [⟨"   ".data, .neutral, 1 / 10, none, none⟩]
         next_id := 1 + 1 })) :=
  ⟨rfl, whitespace_batch_vs_single { healthy := true, records := [], next_id := 1 } rfl⟩
